import Mathlib

/-
Shallow embedding of the per-account session lifecycle of `src/server.js`
(DonutSMP bot manager).  The embedding models the state of one account:
the session record stored in `accountData` (field names follow the source:
`client`, `status`, `logs`, `autoReconnect`, `reconnectAttempts`,
`manualDisconnect`, `deviceCode`, `reconnectTimer`, `disconnectHandled`),
together with the environment the record interacts with: the set of
protocol clients created by `createClient` and not yet terminated, the
set of armed `setTimeout` reconnect timers, and the payloads queued to a
client via `client.queue('text', ...)`.

Side effects that do not touch this state (`broadcastUpdate`,
`discordNotify`, `discordUpdateActivity`, `console.log`, SSE) are omitted:
they read the record and emit, never mutating it.  Log entries carry the
call-site and its data instead of the rendered string (wall-clock
timestamps and float formatting are not modelled; no claim inspects the
rendered text).  Numeric backoff arithmetic is modelled over ℚ: every
value the source computes (5000 * 1.5^k for k ≤ 12, capped at 60000) is
exactly representable as an IEEE double, so ℚ and JS numbers agree here.
-/

namespace DonutBot

/-- `bot.status` strings of `server.js`:
`'Connecting' | 'Online' | 'Auth Required' | 'Error' | 'Offline'`. -/
inductive Status
  | connecting
  | online
  | authRequired
  | error
  | offline
deriving DecidableEq, Repr

/-- `bot.deviceCode` as set by `onMsaCode` (server.js:396-400). -/
structure DeviceCode where
  userCode : String
  verificationUri : String
  expiresIn : Nat
deriving DecidableEq, Repr

/-- One `addLog` call site, with the data interpolated into its message.
Wall-clock timestamps (`new Date().toLocaleTimeString`) are not modelled. -/
inductive LogMsg
  | discordDisconnected                       -- '🔌 Disconnected via Discord.'
  | chatFromDiscord (msg : String)            -- '📤 Discord -> Game: ...'
  | autoReconnectSetDiscord (on_ : Bool)      -- '🔁 Auto-reconnect set to ... via Discord.'
  | manuallyDisconnected                      -- '🔌 Manually disconnected.'
  | chatYou (msg : String)                    -- '📤 You: ...'
  | autoReconnectToggled (on_ : Bool)         -- '🔁 Auto-reconnect ENABLED/DISABLED'
  | testReconnect                             -- '⚡ TEST: Forcing disconnect...'
  | autoReconnectSet (on_ : Bool)             -- '🔁 Auto-reconnect set to ON/OFF'
  | sessionEnd (isError : Bool) (reason : String)  -- handleSessionEnd: '❌/🔌 ${reason}'
  | reconnectAttempt (n : Nat)                -- '🔄 Reconnect attempt #n — ...'
  | startingConnection                        -- '🚀 Starting connection to donutsmp.net:19132...'
  | authRequired                              -- '🔑 Microsoft auth required!'
  | authVisit (uri : String)                  -- '   -> Visit: ...'
  | authCode (code : String) (expiresMin : Nat) -- '   -> Code: ... (expires in N min)'
  | clientCreationFailed (err : String)       -- '❌ Client creation failed: ...'
  | spawned                                   -- '✅ Spawned! Connected to donutsmp.net.'
  | sentHome                                  -- '🏠 Sent: /home 1'
  | sendHomeFailed (err : String)             -- '⚠️ Failed to send /home 1 — ...'
  | joinedServer                              -- '📶 Joined server — waiting for spawn...'
  | inGameText (msg : String)                 -- '💬 ...'
  | backoff (delayMs : ℚ) (attemptShown : Nat) -- '⏱️ Auto-reconnect in Xs (attempt n)'
deriving DecidableEq, Repr

/-- The session record stored in `accountData` (server.js:363-368). -/
structure Bot where
  client : Option Nat
  status : Status
  logs : List LogMsg
  autoReconnect : Bool
  reconnectAttempts : Nat
  manualDisconnect : Bool
  deviceCode : Option DeviceCode
  reconnectTimer : Option Nat
  disconnectHandled : Bool
deriving DecidableEq, Repr

/-- The fresh record `accountData.set(email, {...})` creates (server.js:363-368). -/
def Bot.init : Bot :=
  { client := none, status := .connecting, logs := [], autoReconnect := true,
    reconnectAttempts := 0, manualDisconnect := false, deviceCode := none,
    reconnectTimer := none, disconnectHandled := false }

/-- A protocol client created by `createClient`.  `isOpen` is false once
`client.disconnect()` has been called on it; the record is dropped
entirely once an end signal (disconnect/end/close/error) has been
delivered for it. -/
structure Conn where
  id : Nat
  isOpen : Bool
deriving DecidableEq, Repr

/-- State of the system, restricted to one account: the record (if the
account is in `accountData`), the protocol clients created for it whose
end signal has not yet been delivered, the armed (not fired, not
cleared) reconnect timers, a fresh-id counter, and the payloads queued
to clients via `client.queue('text', {message: ...})`. -/
structure Sys where
  bot : Option Bot
  conns : List Conn
  armed : List Nat
  next : Nat
  sent : List (Nat × String)
deriving DecidableEq, Repr

/-- Process start: no record, no clients, no timers. -/
def Sys.init : Sys := { bot := none, conns := [], armed := [], next := 0, sent := [] }

/-- The log-list update of `addLog` (server.js:313-319): push the entry,
then `if (bot.logs.length > 200) bot.logs.shift()`. -/
def addLogList (logs : List LogMsg) (m : LogMsg) : List LogMsg :=
  let l := logs ++ [m]
  if 200 < l.length then l.drop 1 else l

/-- `addLog(email, message)` (server.js:313-319): no-op when the record is
absent; otherwise append with the 200-entry FIFO cap.  The trailing
`broadcastUpdate` does not mutate state. -/
def Sys.addLog (s : Sys) (m : LogMsg) : Sys :=
  match s.bot with
  | none => s
  | some b => { s with bot := some { b with logs := addLogList b.logs m } }

/-- The backoff delay of `scheduleReconnect` (server.js:491):
`Math.min(5000 * Math.pow(1.5, Math.min(bot.reconnectAttempts, 12)), 60000)`. -/
def reconnectDelayMs (attempts : Nat) : ℚ :=
  min (5000 * (3 / 2 : ℚ) ^ (min attempts 12)) 60000

/-- `clearTimeout(bot.reconnectTimer)`: disarm the referenced timer if it
is still armed; `clearTimeout(null)` and clearing a fired timer are
no-ops. -/
def clearTimer (armed : List Nat) (t : Option Nat) : List Nat :=
  match t with
  | none => armed
  | some id => armed.filter (fun a => a ≠ id)

/-- `scheduleReconnect(email)` (server.js:487-501): no-op when the record
is absent, `manualDisconnect` is set, or `autoReconnect` is off;
otherwise log the backoff line, `clearTimeout` the previous timer, and
arm a fresh one, storing its handle in `bot.reconnectTimer`.  The armed
timer's callback is modelled by the `timerFire` step below. -/
def scheduleReconnect (s : Sys) : Sys :=
  match s.bot with
  | none => s
  | some b =>
    if b.manualDisconnect ∨ ¬b.autoReconnect then s
    else
      { s with
        bot := some { b with
          logs := addLogList b.logs
            (.backoff (reconnectDelayMs b.reconnectAttempts) (b.reconnectAttempts + 1)),
          reconnectTimer := some s.next },
        armed := s.next :: clearTimer s.armed b.reconnectTimer,
        next := s.next + 1 }

/-- `handleSessionEnd(email, reason, isError)` (server.js:337-356):
no-op when the record is absent or `disconnectHandled` is already set;
otherwise set the guard, move to `Error`/`Offline`, release
`bot.client`, log the reason, and — when `!manualDisconnect &&
autoReconnect` — invoke `scheduleReconnect`.  (`broadcastUpdate` and
`discordNotify` are state-free.) -/
def handleSessionEnd (s : Sys) (reason : String) (isError : Bool) : Sys :=
  match s.bot with
  | none => s
  | some b =>
    if b.disconnectHandled then s
    else
      let s1 : Sys :=
        { s with bot := some { b with
            disconnectHandled := true,
            status := if isError then .error else .offline,
            client := none,
            logs := addLogList b.logs (.sessionEnd isError reason) } }
      if ¬b.manualDisconnect ∧ b.autoReconnect then scheduleReconnect s1 else s1

/-- The body of `startBot` (server.js:371-482), once the record `b` for
the account is in place: reset `status`, `deviceCode`,
`manualDisconnect`, `disconnectHandled`; bump or reset
`reconnectAttempts` with the matching log line; then `createClient`.
`createOk` is the environment's choice of whether `createClient`
returns or throws synchronously (`errMsg` the thrown message): on
success the fresh client (with its event handlers attached) becomes
`bot.client`; on failure `status = 'Error'`, log, and
`scheduleReconnect`.  The asynchronous handler callbacks (`onMsaCode`,
`spawn`, `join`, `text`, and the four end signals) are separate steps. -/
def startBotGo (s0 : Sys) (b : Bot) (isReconnect : Bool) (createOk : Bool)
    (errMsg : String) : Sys :=
  let b1 : Bot := { b with status := .connecting, deviceCode := none,
                           manualDisconnect := false, disconnectHandled := false }
  let b2 : Bot :=
    if isReconnect then
      { b1 with reconnectAttempts := b1.reconnectAttempts + 1,
                logs := addLogList b1.logs (.reconnectAttempt (b1.reconnectAttempts + 1)) }
    else
      { b1 with reconnectAttempts := 0,
                logs := addLogList b1.logs .startingConnection }
  if createOk then
    { s0 with bot := some { b2 with client := some s0.next },
              conns := s0.conns ++ [{ id := s0.next, isOpen := true }],
              next := s0.next + 1 }
  else
    scheduleReconnect
      { s0 with bot := some { b2 with
          status := .error,
          logs := addLogList b2.logs (.clientCreationFailed errMsg) } }

/-- `startBot(email, isReconnect)` (server.js:361-482): create the
record with the defaults of server.js:363-368 if the account is not yet
in `accountData`, then run the body on the record found. -/
def startBot (s : Sys) (isReconnect : Bool) (createOk : Bool) (errMsg : String) : Sys :=
  match s.bot with
  | some b => startBotGo s b isReconnect createOk errMsg
  | none => startBotGo { s with bot := some Bot.init } Bot.init isReconnect createOk errMsg

/-- The `onMsaCode` callback passed to `createClient` (server.js:395-413):
store `deviceCode`, set `status = 'Auth Required'`, and log the three
auth lines (`Math.round(expires_in / 60)` on naturals is
`(expiresIn + 30) / 60`). -/
def onMsaCode (s : Sys) (d : DeviceCode) : Sys :=
  match s.bot with
  | none => s
  | some b =>
    { s with bot := some { b with
        deviceCode := some d,
        status := .authRequired,
        logs := addLogList (addLogList (addLogList b.logs .authRequired)
                  (.authVisit d.verificationUri))
                  (.authCode d.userCode ((d.expiresIn + 30) / 60)) } }

/-- The `client.on('spawn')` handler (server.js:425-444), for the client
`c` the handler closed over: `status = 'Online'`, reset
`reconnectAttempts`, clear `deviceCode`, reset `disconnectHandled`, log;
then try to `client.queue` the `/home 1` chat payload — `sendOk` is
whether the queue call returns or throws synchronously (`errMsg` the
message); the failure is caught and only logged. -/
def onSpawn (s : Sys) (c : Nat) (sendOk : Bool) (errMsg : String) : Sys :=
  match s.bot with
  | none => s
  | some b =>
    let b1 : Bot := { b with status := .online, reconnectAttempts := 0,
                             deviceCode := none, disconnectHandled := false,
                             logs := addLogList b.logs .spawned }
    if sendOk then
      { s with bot := some { b1 with logs := addLogList b1.logs .sentHome },
               sent := s.sent ++ [(c, "/home 1")] }
    else
      { s with bot := some { b1 with logs := addLogList b1.logs (.sendHomeFailed errMsg) } }

/-- Any of the four end signals of client `c` — `disconnect` (packet
0x05, isError false), `end` (isError false), `close(hadError)`, `error`
(isError true) (server.js:461-481): the connection is gone, and the
handler calls `handleSessionEnd` with a signal-specific reason. -/
def onClientEnd (s : Sys) (c : Nat) (reason : String) (isError : Bool) : Sys :=
  handleSessionEnd { s with conns := s.conns.filter (fun co => co.id ≠ c) } reason isError

/-- The `client.on('join')` handler (server.js:446-448): log only. -/
def onJoin (s : Sys) : Sys := s.addLog .joinedServer

/-- The `client.on('text')` handler (server.js:451-458): log the message
unless it is empty (`if (!msg) return`); the Discord mirror is
state-free. -/
def onText (s : Sys) (msg : String) : Sys :=
  if msg = "" then s else s.addLog (.inGameText msg)

/-- The `setTimeout` callback armed by `scheduleReconnect`
(server.js:498-500), firing timer `t`: the timer is spent, and the
callback re-checks `!bot.manualDisconnect && bot.autoReconnect` before
calling `startBot(email, true)`.  It does not null `bot.reconnectTimer`. -/
def timerFire (s : Sys) (t : Nat) (createOk : Bool) (errMsg : String) : Sys :=
  let s1 : Sys := { s with armed := s.armed.filter (fun a => a ≠ t) }
  match s1.bot with
  | none => s1
  | some b =>
    if ¬b.manualDisconnect ∧ b.autoReconnect then startBot s1 true createOk errMsg else s1

/-- The statuses the connect handlers treat as already active
(server.js:82, 223): `['Connecting', 'Online', 'Auth Required']`. -/
def activeStatuses : List Status := [.connecting, .online, .authRequired]

/-- `POST /connect` (server.js:219-228) and the Discord `connect` command
(server.js:79-87), for this account: reject with the conflict error when
a record exists with an active status; otherwise `startBot(email, false)`. -/
def connectCmd (s : Sys) (createOk : Bool) (errMsg : String) : Except String Sys :=
  match s.bot with
  | some b =>
    if b.status ∈ activeStatuses then .error "Already connecting or connected"
    else .ok (startBot s false createOk errMsg)
  | none => .ok (startBot s false createOk errMsg)

/-- Mark client `c` closed (`bot.client.disconnect()`); the try/catch
around the call swallows any synchronous error, so the caller's state
updates run in either case. -/
def closeConn (conns : List Conn) (c : Option Nat) : List Conn :=
  match c with
  | none => conns
  | some id => conns.map (fun co => if co.id = id then { co with isOpen := false } else co)

/-- `POST /disconnect` (server.js:233-247): 'Session not found' when the
record is absent; otherwise set `manualDisconnect`, `disconnectHandled`,
`autoReconnect := false`, `clearTimeout` and null `reconnectTimer`,
close and release `bot.client` (close errors swallowed), set `status =
'Offline'`, log. -/
def disconnectHttp (s : Sys) : Except String Sys :=
  match s.bot with
  | none => .error "Session not found"
  | some b =>
    .ok { s with
      bot := some { b with
        manualDisconnect := true, disconnectHandled := true, autoReconnect := false,
        reconnectTimer := none, client := none, status := .offline,
        logs := addLogList b.logs .manuallyDisconnected },
      armed := clearTimer s.armed b.reconnectTimer,
      conns := closeConn s.conns b.client }

/-- The Discord `disconnect` command (server.js:89-102): same as
`POST /disconnect` except the cleared `bot.reconnectTimer` field is not
nulled and the log line differs. -/
def disconnectDiscord (s : Sys) : Except String Sys :=
  match s.bot with
  | none => .error "Not Found"
  | some b =>
    .ok { s with
      bot := some { b with
        manualDisconnect := true, disconnectHandled := true, autoReconnect := false,
        client := none, status := .offline,
        logs := addLogList b.logs .discordDisconnected },
      armed := clearTimer s.armed b.reconnectTimer,
      conns := closeConn s.conns b.client }

/-- `POST /set-reconnect` (server.js:300-308): 'Session not found' when
absent, else `bot.autoReconnect = !!enabled` and log.  The Discord
`reconnect` command (server.js:132-141) sets the same flag. -/
def setReconnectCmd (s : Sys) (enabled : Bool) : Except String Sys :=
  match s.bot with
  | none => .error "Session not found"
  | some b =>
    .ok { s with bot := some { b with
            autoReconnect := enabled,
            logs := addLogList b.logs (.autoReconnectSet enabled) } }

/-- `POST /toggle-reconnect` (server.js:271-279). -/
def toggleReconnectCmd (s : Sys) : Except String Sys :=
  match s.bot with
  | none => .error "Session not found"
  | some b =>
    .ok { s with bot := some { b with
            autoReconnect := !b.autoReconnect,
            logs := addLogList b.logs (.autoReconnectToggled (!b.autoReconnect)) } }

/-- `GET /chat` (server.js:252-266): queue the message to `bot.client`
when present and `status === 'Online'`, else 'Bot offline'. -/
def chatCmd (s : Sys) (msg : String) : Except String Sys :=
  match s.bot with
  | none => .error "Bot offline"
  | some b =>
    match b.client with
    | none => .error "Bot offline"
    | some c =>
      if b.status = .online then
        .ok { s with
          sent := s.sent ++ [(c, msg)],
          bot := some { b with logs := addLogList b.logs (.chatYou msg) } }
      else .error "Bot offline"

/-- `POST /test-reconnect` (server.js:284-295): requires a client and
`status === 'Online'`; logs, then force-closes the connection
(`bot.client.disconnect()`, errors swallowed) without touching the
record — the reconnect path is exercised by the close signal that
follows. -/
def testReconnectCmd (s : Sys) : Except String Sys :=
  match s.bot with
  | none => .error "Session not found"
  | some b =>
    match b.client with
    | none => .error "Bot must be online to test reconnect"
    | some c =>
      if b.status = .online then
        .ok { s with
          bot := some { b with logs := addLogList b.logs .testReconnect },
          conns := closeConn s.conns (some c) }
      else .error "Bot must be online to test reconnect"

/-- Whether client `c` has been created and its end signal not yet
delivered (its handlers can still fire). -/
def Sys.hasConn (s : Sys) (c : Nat) : Prop := ∃ co ∈ s.conns, co.id = c

instance (s : Sys) (c : Nat) : Decidable (s.hasConn c) :=
  inferInstanceAs (Decidable (∃ co ∈ s.conns, co.id = c))

/-- One step of the event loop for this account: an operator command
(HTTP or Discord), an armed timer firing, or a handler callback of a
created client.  `createOk`/`sendOk`/`errMsg`/`reason`/`d`/`msg` are the
environment's choices.  Rejected commands leave the state unchanged and
are omitted (they add only reflexive steps). -/
inductive Step : Sys → Sys → Prop
  | connect (s s' : Sys) (createOk : Bool) (errMsg : String) :
      connectCmd s createOk errMsg = .ok s' → Step s s'
  | disconnectH (s s' : Sys) : disconnectHttp s = .ok s' → Step s s'
  | disconnectD (s s' : Sys) : disconnectDiscord s = .ok s' → Step s s'
  | setReconnect (s s' : Sys) (enabled : Bool) :
      setReconnectCmd s enabled = .ok s' → Step s s'
  | toggleReconnect (s s' : Sys) : toggleReconnectCmd s = .ok s' → Step s s'
  | chat (s s' : Sys) (msg : String) : chatCmd s msg = .ok s' → Step s s'
  | testReconnect (s s' : Sys) : testReconnectCmd s = .ok s' → Step s s'
  | timer (s : Sys) (t : Nat) (createOk : Bool) (errMsg : String) :
      t ∈ s.armed → Step s (timerFire s t createOk errMsg)
  | clientEnd (s : Sys) (c : Nat) (reason : String) (isError : Bool) :
      s.hasConn c → Step s (onClientEnd s c reason isError)
  | msaCode (s : Sys) (c : Nat) (d : DeviceCode) :
      s.hasConn c → Step s (onMsaCode s d)
  | spawn (s : Sys) (c : Nat) (sendOk : Bool) (errMsg : String) :
      s.hasConn c → Step s (onSpawn s c sendOk errMsg)
  | join (s : Sys) (c : Nat) : s.hasConn c → Step s (onJoin s)
  | text (s : Sys) (c : Nat) (msg : String) : s.hasConn c → Step s (onText s msg)

/-- States reachable from process start by operator commands, timer
firings and client events. -/
def Reachable (s : Sys) : Prop := Relation.ReflTransGen Step Sys.init s

/-! ### Log-buffer lemmas -/

lemma addLogList_length_le (logs : List LogMsg) (m : LogMsg)
    (h : logs.length ≤ 200) : (addLogList logs m).length ≤ 200 := by
  show (if 200 < (logs ++ [m]).length then (logs ++ [m]).drop 1 else (logs ++ [m])).length ≤ 200
  split <;> rename_i hc <;> simp at hc ⊢ <;> omega

lemma foldl_addLogList (es : List LogMsg) (acc : List LogMsg)
    (h : acc.length ≤ 200) :
    List.foldl addLogList acc es = (acc ++ es).drop (acc.length + es.length - 200) := by
  induction es generalizing acc with
  | nil =>
    simp only [List.foldl_nil, List.append_nil, List.length_nil, Nat.add_zero]
    rw [Nat.sub_eq_zero_of_le h, List.drop_zero]
  | cons e tl ih =>
    rw [List.foldl_cons]
    by_cases hc : 200 < (acc ++ [e]).length
    · have hacc : acc.length = 200 := by simp at hc; omega
      have hstep : addLogList acc e = (acc ++ [e]).drop 1 := by
        show (if 200 < (acc ++ [e]).length then (acc ++ [e]).drop 1 else (acc ++ [e])) = _
        rw [if_pos hc]
      have hlen' : ((acc ++ [e]).drop 1).length ≤ 200 := by
        simp; omega
      rw [hstep, ih _ hlen']
      have h1 : ((acc ++ [e]).drop 1).length + tl.length - 200 = tl.length := by
        simp; omega
      have h1' : acc.length + (e :: tl).length - 200 = tl.length + 1 := by
        simp [hacc]
      rw [h1, h1']
      have h2 : (acc ++ [e]).drop 1 ++ tl = (acc ++ (e :: tl)).drop 1 := by
        have hx : acc ++ (e :: tl) = (acc ++ [e]) ++ tl := by simp
        rw [hx]
        exact (List.drop_append_of_le_length (by simp)).symm
      rw [h2, List.drop_drop, Nat.add_comm]
    · have hstep : addLogList acc e = acc ++ [e] := by
        show (if 200 < (acc ++ [e]).length then (acc ++ [e]).drop 1 else (acc ++ [e])) = _
        rw [if_neg hc]
      have hlen' : (acc ++ [e]).length ≤ 200 := by simp at hc ⊢; omega
      rw [hstep, ih _ hlen']
      have h3 : (acc ++ [e]) ++ tl = acc ++ e :: tl := by simp
      have h4 : (acc ++ [e]).length + tl.length - 200 = acc.length + (e :: tl).length - 200 := by
        simp
        omega
      rw [h3, h4]

/-! ### Transition-system lemmas

A reconnect timer is armed only inside `scheduleReconnect`; these lemmas
track, per operation, where the armed-timer set can grow and what the
record looks like at the instant of arming. -/

lemma clearTimer_subset {armed : List Nat} {x : Option Nat} {t : Nat}
    (h : t ∈ clearTimer armed x) : t ∈ armed := by
  cases x with
  | none => exact h
  | some id => exact (List.mem_filter.mp h).1

lemma sched_eq (s : Sys) (b : Bot) (hb : s.bot = some b)
    (hm : b.manualDisconnect = false) (ha : b.autoReconnect = true) :
    scheduleReconnect s =
      { s with
        bot := some { b with
          logs := addLogList b.logs
            (.backoff (reconnectDelayMs b.reconnectAttempts) (b.reconnectAttempts + 1)),
          reconnectTimer := some s.next },
        armed := s.next :: clearTimer s.armed b.reconnectTimer,
        next := s.next + 1 } := by
  unfold scheduleReconnect
  rw [hb]
  simp only []
  rw [if_neg (by simp [hm, ha])]

lemma sched_arm {s : Sys} {t : Nat}
    (h1 : t ∈ (scheduleReconnect s).armed) (h2 : t ∉ s.armed) :
    ∃ b, s.bot = some b ∧ b.autoReconnect = true ∧ b.manualDisconnect = false ∧
      ∃ b2, (scheduleReconnect s).bot = some b2 ∧
        b2.status = b.status ∧ b2.autoReconnect = true ∧ b2.manualDisconnect = false ∧
        b2.reconnectTimer = some t := by
  rcases hb : s.bot with _ | b
  · have heq : scheduleReconnect s = s := by
      unfold scheduleReconnect; rw [hb]
    rw [heq] at h1
    exact absurd h1 h2
  · by_cases hc : b.manualDisconnect = true ∨ ¬b.autoReconnect = true
    · have heq : scheduleReconnect s = s := by
        unfold scheduleReconnect; rw [hb]; simp only []; rw [if_pos hc]
      rw [heq] at h1
      exact absurd h1 h2
    · push_neg at hc
      have hm : b.manualDisconnect = false := by simpa using hc.1
      have ha : b.autoReconnect = true := hc.2
      have heq := sched_eq s b hb hm ha
      rw [heq] at h1
      simp only [List.mem_cons] at h1
      have ht : t = s.next := by
        rcases h1 with h1 | h1
        · exact h1
        · exact absurd (clearTimer_subset h1) h2
      refine ⟨b, rfl, ha, hm, ?_⟩
      rw [heq, ht]
      exact ⟨_, rfl, rfl, ha, hm, rfl⟩

lemma hse_arm {s : Sys} {r : String} {e : Bool} {t : Nat}
    (h1 : t ∈ (handleSessionEnd s r e).armed) (h2 : t ∉ s.armed) :
    ∃ b2, (handleSessionEnd s r e).bot = some b2 ∧
      (b2.status = .offline ∨ b2.status = .error) ∧
      b2.autoReconnect = true ∧ b2.manualDisconnect = false ∧
      b2.reconnectTimer = some t := by
  rcases hb : s.bot with _ | b
  · have heq : handleSessionEnd s r e = s := by
      unfold handleSessionEnd; rw [hb]
    rw [heq] at h1
    exact absurd h1 h2
  · by_cases hh : b.disconnectHandled = true
    · have heq : handleSessionEnd s r e = s := by
        unfold handleSessionEnd; rw [hb]; simp only []; rw [if_pos hh]
      rw [heq] at h1
      exact absurd h1 h2
    · by_cases hc : ¬b.manualDisconnect = true ∧ b.autoReconnect = true
      · have heq : handleSessionEnd s r e = scheduleReconnect
            { s with bot := some { b with
                disconnectHandled := true,
                status := if e then .error else .offline,
                client := none,
                logs := addLogList b.logs (.sessionEnd e r) } } := by
          unfold handleSessionEnd
          rw [hb]
          simp only []
          rw [if_neg hh, if_pos hc]
        rw [heq] at h1 ⊢
        obtain ⟨b1, hb1, ha1, hm1, b2, hbot, hst, ha2, hm2, htm⟩ := sched_arm h1 h2
        refine ⟨b2, hbot, ?_, ha2, hm2, htm⟩
        simp only [Option.some_inj] at hb1
        rw [hst, ← hb1]
        by_cases he : e = true
        · subst he; right; rfl
        · simp only [Bool.not_eq_true] at he; subst he; left; rfl
      · have heq : handleSessionEnd s r e =
            { s with bot := some { b with
                disconnectHandled := true,
                status := if e then .error else .offline,
                client := none,
                logs := addLogList b.logs (.sessionEnd e r) } } := by
          unfold handleSessionEnd
          rw [hb]
          simp only []
          rw [if_neg hh, if_neg hc]
        rw [heq] at h1
        exact absurd h1 h2

lemma startGo_arm {s0 : Sys} {b : Bot} {isRec ok : Bool} {err : String} {t : Nat}
    (h1 : t ∈ (startBotGo s0 b isRec ok err).armed) (h2 : t ∉ s0.armed) :
    ∃ b2, (startBotGo s0 b isRec ok err).bot = some b2 ∧ b2.status = .error ∧
      b2.autoReconnect = true ∧ b2.manualDisconnect = false ∧
      b2.reconnectTimer = some t := by
  unfold startBotGo at h1 ⊢
  by_cases hok : ok = true
  · rw [if_pos hok] at h1
    exact absurd h1 h2
  · rw [if_neg hok] at h1 ⊢
    obtain ⟨bb, hbb, hauto, hman, b2, hbot, hst, ha2, hm2, htm⟩ := sched_arm h1 h2
    refine ⟨b2, hbot, ?_, ha2, hm2, htm⟩
    simp only [Option.some_inj] at hbb
    rw [hst, ← hbb]

lemma start_arm {s : Sys} {isRec ok : Bool} {err : String} {t : Nat}
    (h1 : t ∈ (startBot s isRec ok err).armed) (h2 : t ∉ s.armed) :
    ∃ b2, (startBot s isRec ok err).bot = some b2 ∧ b2.status = .error ∧
      b2.autoReconnect = true ∧ b2.manualDisconnect = false ∧
      b2.reconnectTimer = some t := by
  rcases hb : s.bot with _ | b
  · have heq : startBot s isRec ok err =
        startBotGo { s with bot := some Bot.init } Bot.init isRec ok err := by
      unfold startBot; rw [hb]
    rw [heq] at h1 ⊢
    exact startGo_arm h1 h2
  · have heq : startBot s isRec ok err = startBotGo s b isRec ok err := by
      unfold startBot; rw [hb]
    rw [heq] at h1 ⊢
    exact startGo_arm h1 h2

lemma timerFire_arm {s : Sys} {t0 : Nat} {ok : Bool} {err : String} {t : Nat}
    (h1 : t ∈ (timerFire s t0 ok err).armed) (h2 : t ∉ s.armed) :
    ∃ b2, (timerFire s t0 ok err).bot = some b2 ∧ b2.status = .error ∧
      b2.autoReconnect = true ∧ b2.manualDisconnect = false ∧
      b2.reconnectTimer = some t := by
  have hsub : t ∉ ({ s with armed := s.armed.filter (fun a => a ≠ t0) } : Sys).armed := by
    intro hmem
    exact h2 (List.mem_filter.mp hmem).1
  unfold timerFire at h1 ⊢
  simp only [] at h1 ⊢
  rcases hb : s.bot with _ | b
  · rw [hb] at h1
    simp only [] at h1
    exact absurd h1 hsub
  · rw [hb] at h1
    simp only [] at h1 ⊢
    by_cases hcg : ¬b.manualDisconnect = true ∧ b.autoReconnect = true
    · rw [if_pos hcg] at h1 ⊢
      exact start_arm h1 hsub
    · rw [if_neg hcg] at h1
      exact absurd h1 hsub

lemma connect_ok_eq {s s' : Sys} {ok : Bool} {err : String}
    (h : connectCmd s ok err = .ok s') : s' = startBot s false ok err := by
  unfold connectCmd at h
  split at h
  · split at h
    · simp at h
    · simp only [Except.ok.injEq] at h
      exact h.symm
  · simp only [Except.ok.injEq] at h
    exact h.symm

lemma disconnectHttp_armed {s s' : Sys} (h : disconnectHttp s = .ok s') {t : Nat}
    (ht : t ∈ s'.armed) : t ∈ s.armed := by
  unfold disconnectHttp at h
  split at h
  · simp at h
  · simp only [Except.ok.injEq] at h
    subst h
    exact clearTimer_subset ht

lemma disconnectDiscord_armed {s s' : Sys} (h : disconnectDiscord s = .ok s') {t : Nat}
    (ht : t ∈ s'.armed) : t ∈ s.armed := by
  unfold disconnectDiscord at h
  split at h
  · simp at h
  · simp only [Except.ok.injEq] at h
    subst h
    exact clearTimer_subset ht

lemma setReconnect_armed {s s' : Sys} {en : Bool}
    (h : setReconnectCmd s en = .ok s') : s'.armed = s.armed := by
  unfold setReconnectCmd at h
  split at h
  · simp at h
  · simp only [Except.ok.injEq] at h
    subst h
    rfl

lemma toggleReconnect_armed {s s' : Sys}
    (h : toggleReconnectCmd s = .ok s') : s'.armed = s.armed := by
  unfold toggleReconnectCmd at h
  split at h
  · simp at h
  · simp only [Except.ok.injEq] at h
    subst h
    rfl

lemma chatCmd_armed {s s' : Sys} {m : String}
    (h : chatCmd s m = .ok s') : s'.armed = s.armed := by
  unfold chatCmd at h
  split at h
  · simp at h
  · split at h
    · simp at h
    · split at h
      · simp only [Except.ok.injEq] at h
        subst h
        rfl
      · simp at h

lemma testReconnect_armed {s s' : Sys}
    (h : testReconnectCmd s = .ok s') : s'.armed = s.armed := by
  unfold testReconnectCmd at h
  split at h
  · simp at h
  · split at h
    · simp at h
    · split at h
      · simp only [Except.ok.injEq] at h
        subst h
        rfl
      · simp at h

lemma addLog_armed (s : Sys) (m : LogMsg) : (s.addLog m).armed = s.armed := by
  unfold Sys.addLog
  split <;> rfl

lemma onMsaCode_armed (s : Sys) (d : DeviceCode) : (onMsaCode s d).armed = s.armed := by
  unfold onMsaCode
  split <;> rfl

lemma onSpawn_armed (s : Sys) (c : Nat) (ok : Bool) (err : String) :
    (onSpawn s c ok err).armed = s.armed := by
  unfold onSpawn
  split
  · rfl
  · split <;> rfl

lemma onJoin_armed (s : Sys) : (onJoin s).armed = s.armed := addLog_armed s _

lemma onText_armed (s : Sys) (m : String) : (onText s m).armed = s.armed := by
  unfold onText
  split
  · rfl
  · exact addLog_armed s _

/-! ### Claims -/

/-- **C4.** For every `reconnectAttemptCount` n ≥ 0, `scheduleReconnect`'s
delay equals `min(5000 · 1.5^min(n,12), 60000)` ms; attempts 0, 1, 2
yield 5000, 7500, 11250 ms, and every attempt n ≥ 12 yields exactly
60000 ms. -/
theorem backoff_delay_spec :
    (∀ n : Nat, reconnectDelayMs n = min (5000 * (3 / 2 : ℚ) ^ (min n 12)) 60000) ∧
    reconnectDelayMs 0 = 5000 ∧ reconnectDelayMs 1 = 7500 ∧ reconnectDelayMs 2 = 11250 ∧
    ∀ n : Nat, 12 ≤ n → reconnectDelayMs n = 60000 := by
  refine ⟨fun n => rfl, by norm_num [reconnectDelayMs], by norm_num [reconnectDelayMs],
    by norm_num [reconnectDelayMs], fun n hn => ?_⟩
  unfold reconnectDelayMs
  rw [min_eq_right hn]
  norm_num

/-- Witness for C4: the theorem applied at n = 0 and at n = 14. -/
theorem backoff_delay_spec_witness :
    reconnectDelayMs 0 = min (5000 * (3 / 2 : ℚ) ^ (min 0 12)) 60000 ∧
    (12 : Nat) ≤ 14 ∧ reconnectDelayMs 14 = 60000 :=
  ⟨backoff_delay_spec.1 0, by norm_num, backoff_delay_spec.2.2.2.2 14 (by norm_num)⟩

/-- **C9.** The log never exceeds 200 entries, eviction is FIFO (oldest
first), and after 250 insertions into an empty log exactly the 50
oldest entries are gone, the remaining 200 being the most recent in
insertion order. -/
theorem log_cap_fifo :
    (∀ (logs : List LogMsg) (m : LogMsg), logs.length ≤ 200 →
      (addLogList logs m).length ≤ 200) ∧
    (∀ es : List LogMsg, (List.foldl addLogList [] es).length ≤ 200) ∧
    (∀ es : List LogMsg, es.length = 250 →
      List.foldl addLogList [] es = es.drop 50) := by
  refine ⟨addLogList_length_le, fun es => ?_, fun es h250 => ?_⟩
  · rw [foldl_addLogList es [] (by simp)]
    simp [List.length_drop]
    omega
  · rw [foldl_addLogList es [] (by simp)]
    simp [h250]

/-- Witness for C9: the theorem applied to a concrete singleton-growth
step and a concrete 250-entry insertion sequence. -/
theorem log_cap_fifo_witness :
    (addLogList [] .spawned).length ≤ 200 ∧
    List.foldl addLogList [] ((List.range 250).map LogMsg.reconnectAttempt) =
      ((List.range 250).map LogMsg.reconnectAttempt).drop 50 :=
  ⟨log_cap_fifo.1 [] .spawned (by simp),
   log_cap_fifo.2.2 _ (by simp)⟩

/-- **C7.** A non-reconnect start on an account whose state is
Connecting, Online, or AuthRequired is rejected with the already-active
conflict error; no successor state is produced, so the record is
untouched and no connection is opened. -/
theorem start_rejected_when_active (s : Sys) (b : Bot) (createOk : Bool) (errMsg : String)
    (hb : s.bot = some b) (hactive : b.status ∈ activeStatuses) :
    connectCmd s createOk errMsg = .error "Already connecting or connected" := by
  unfold connectCmd
  rw [hb]
  simp [hactive]

/-- A freshly created session record sitting in `accountData`. -/
def wSys0 : Sys := { bot := some Bot.init, conns := [], armed := [], next := 0, sent := [] }

/-- Witness for C7: a record in `'Connecting'` state rejects `/connect`. -/
theorem start_rejected_when_active_witness :
    wSys0.bot = some Bot.init ∧ Bot.init.status ∈ activeStatuses ∧
    connectCmd wSys0 true "" = .error "Already connecting or connected" :=
  ⟨rfl, by decide, start_rejected_when_active wSys0 Bot.init true "" rfl (by decide)⟩

/-- **C5.** `setAutoReconnect(accountId, false)` on a session with a
pending reconnect timer does not cancel the timer (armed set and
`reconnectTimer` field are untouched), but when the timer fires its
callback re-checks the flags and, `autoReconnect` being false, performs
nothing beyond consuming the timer — no `startBot` call occurs. -/
theorem setReconnect_false_keeps_timer (s s₁ : Sys) (b : Bot)
    (hb : s.bot = some b) (hok : setReconnectCmd s false = .ok s₁) :
    s₁.armed = s.armed ∧
    (∃ b₁, s₁.bot = some b₁ ∧ b₁.reconnectTimer = b.reconnectTimer ∧
      b₁.autoReconnect = false) ∧
    (∀ (t : Nat) (createOk : Bool) (errMsg : String),
      timerFire s₁ t createOk errMsg =
        { s₁ with armed := s₁.armed.filter (fun a => a ≠ t) }) := by
  unfold setReconnectCmd at hok
  rw [hb] at hok
  simp only [Except.ok.injEq] at hok
  subst hok
  refine ⟨rfl, ⟨_, rfl, rfl, rfl⟩, fun t createOk errMsg => ?_⟩
  unfold timerFire
  simp

/-- An `Offline` record with reconnect timer 0 armed (as left by
`handleSessionEnd` + `scheduleReconnect`). -/
def wBot : Bot :=
  { Bot.init with status := .offline, reconnectTimer := some 0, disconnectHandled := true }

/-- A system holding `wBot` with its timer armed. -/
def wTimer : Sys := { bot := some wBot, conns := [], armed := [0], next := 1, sent := [] }

/-- The state `POST /set-reconnect {enabled: false}` produces from `wTimer`. -/
def wTimer1 : Sys :=
  { wTimer with bot := some { wBot with
      autoReconnect := false,
      logs := addLogList wBot.logs (.autoReconnectSet false) } }

/-- Witness for C5: the theorem applied to `wTimer`. -/
theorem setReconnect_false_keeps_timer_witness :
    wTimer.bot = some wBot ∧ setReconnectCmd wTimer false = .ok wTimer1 ∧
    (wTimer1.armed = wTimer.armed ∧
     (∃ b₁, wTimer1.bot = some b₁ ∧ b₁.reconnectTimer = wBot.reconnectTimer ∧
       b₁.autoReconnect = false) ∧
     (∀ (t : Nat) (createOk : Bool) (errMsg : String),
       timerFire wTimer1 t createOk errMsg =
         { wTimer1 with armed := wTimer1.armed.filter (fun a => a ≠ t) })) :=
  ⟨rfl, rfl, setReconnect_false_keeps_timer wTimer wTimer1 wBot rfl rfl⟩

/-- **C6.** `stop` fails with NotFound when no record exists; otherwise
it sets `manualDisconnect`, `disconnectHandled`, disables
`autoReconnect`, cancels any pending reconnect timer (so a later timer
firing cannot call `startBot(email, true)`), releases and closes the
client (close errors swallowed — the handler always succeeds), sets
`status = 'Offline'`, and logs. -/
theorem stop_spec (s : Sys) :
    (s.bot = none → disconnectHttp s = .error "Session not found" ∧
      disconnectDiscord s = .error "Not Found") ∧
    (∀ b : Bot, s.bot = some b →
      ∃ s', disconnectHttp s = .ok s' ∧
        s'.bot = some { b with
          manualDisconnect := true, disconnectHandled := true, autoReconnect := false,
          reconnectTimer := none, client := none, status := .offline,
          logs := addLogList b.logs .manuallyDisconnected } ∧
        s'.armed = clearTimer s.armed b.reconnectTimer ∧
        (∀ t : Nat, b.reconnectTimer = some t → t ∉ s'.armed) ∧
        s'.conns = closeConn s.conns b.client ∧
        (∀ (t : Nat) (createOk : Bool) (errMsg : String),
          timerFire s' t createOk errMsg =
            { s' with armed := s'.armed.filter (fun a => a ≠ t) })) := by
  constructor
  · intro hnone
    unfold disconnectHttp disconnectDiscord
    rw [hnone]
    exact ⟨rfl, rfl⟩
  · intro b hb
    refine ⟨_, by unfold disconnectHttp; rw [hb], rfl, ?_, ?_, rfl, ?_⟩
    · rfl
    · intro t ht
      simp only [clearTimer, ht]
      simp
    · intro t createOk errMsg
      unfold timerFire
      simp

/-- Witness for C6: the theorem applied to the empty system and to
`wTimer` (pending timer 0). -/
theorem stop_spec_witness :
    (disconnectHttp Sys.init = .error "Session not found" ∧
      disconnectDiscord Sys.init = .error "Not Found") ∧
    (∃ s', disconnectHttp wTimer = .ok s' ∧
      s'.bot = some { wBot with
        manualDisconnect := true, disconnectHandled := true, autoReconnect := false,
        reconnectTimer := none, client := none, status := .offline,
        logs := addLogList wBot.logs .manuallyDisconnected } ∧
      s'.armed = clearTimer wTimer.armed wBot.reconnectTimer ∧
      (∀ t : Nat, wBot.reconnectTimer = some t → t ∉ s'.armed) ∧
      s'.conns = closeConn wTimer.conns wBot.client ∧
      (∀ (t : Nat) (createOk : Bool) (errMsg : String),
        timerFire s' t createOk errMsg =
          { s' with armed := s'.armed.filter (fun a => a ≠ t) })) :=
  ⟨(stop_spec Sys.init).1 rfl, (stop_spec wTimer).2 wBot rfl⟩

/-- **C10.** Beyond the Online transition, the spawn handler resets the
`disconnectHandled` guard to false and queues the in-game chat payload
`/home 1` through the connection, logging the send; a synchronous send
failure is caught and logged, leaving every other field as in the
success case. -/
theorem spawn_extra_effects (s : Sys) (b : Bot) (c : Nat) (errMsg : String)
    (hb : s.bot = some b) :
    onSpawn s c true errMsg =
      { s with
        bot := some { b with
          status := .online, reconnectAttempts := 0,
          deviceCode := none, disconnectHandled := false,
          logs := addLogList (addLogList b.logs .spawned) .sentHome },
        sent := s.sent ++ [(c, "/home 1")] } ∧
    onSpawn s c false errMsg =
      { s with
        bot := some { b with
          status := .online, reconnectAttempts := 0,
          deviceCode := none, disconnectHandled := false,
          logs := addLogList (addLogList b.logs .spawned) (.sendHomeFailed errMsg) } } := by
  unfold onSpawn
  rw [hb]
  exact ⟨rfl, rfl⟩

/-- An `Online` record with a live client 0 and empty log, as reached
after `startBot` and a `spawn`. -/
def onlineBot : Bot :=
  { client := some 0, status := .online, logs := [], autoReconnect := true,
    reconnectAttempts := 0, manualDisconnect := false, deviceCode := none,
    reconnectTimer := none, disconnectHandled := false }

/-- A system holding `onlineBot` with its connection open. -/
def onlineSys : Sys :=
  { bot := some onlineBot, conns := [{ id := 0, isOpen := true }],
    armed := [], next := 1, sent := [] }

/-- Counterexample for C2 as stated: from an `Online` session with
`autoReconnect = true`, the first end signal appends **two** log
entries — the end-of-session reason from `handleSessionEnd` and the
backoff announcement from `scheduleReconnect` — not exactly one.  (The
duplicate second signal is indeed a complete no-op.) -/
theorem session_end_one_log_cex :
    ¬ ((handleSessionEnd onlineSys "Connection closed" false).bot.map
        (fun b => b.logs.length) = some 1) ∧
    (handleSessionEnd onlineSys "Connection closed" false).bot.map
        (fun b => b.logs.length) = some 2 ∧
    handleSessionEnd (handleSessionEnd onlineSys "Connection closed" false)
        "Error — write EPIPE" true = handleSessionEnd onlineSys "Connection closed" false :=
  ⟨by decide, by decide, rfl⟩

/-- **C2 (amended).** For an attempt whose `disconnectHandled` guard is
still clear, the first end signal performs the one canonical
transition: state to Error/Offline, handle released, the guard set,
exactly one end-of-session log entry appended (followed by the
scheduler's own backoff entry when a reconnect is scheduled), and at
most one reconnect timer armed; every subsequent signal for that
attempt — the guard now set — is a complete no-op. -/
theorem session_end_exactly_once (s : Sys) (b : Bot) (r₁ r₂ : String) (e₁ e₂ : Bool)
    (hb : s.bot = some b) (hg : b.disconnectHandled = false) :
    (if b.manualDisconnect = false ∧ b.autoReconnect = true then
      handleSessionEnd s r₁ e₁ =
        { s with
          bot := some { b with
            disconnectHandled := true,
            status := if e₁ then .error else .offline,
            client := none,
            logs := addLogList (addLogList b.logs (.sessionEnd e₁ r₁))
                      (.backoff (reconnectDelayMs b.reconnectAttempts) (b.reconnectAttempts + 1)),
            reconnectTimer := some s.next },
          armed := s.next :: clearTimer s.armed b.reconnectTimer,
          next := s.next + 1 }
    else
      handleSessionEnd s r₁ e₁ =
        { s with
          bot := some { b with
            disconnectHandled := true,
            status := if e₁ then .error else .offline,
            client := none,
            logs := addLogList b.logs (.sessionEnd e₁ r₁) } }) ∧
    handleSessionEnd (handleSessionEnd s r₁ e₁) r₂ e₂ = handleSessionEnd s r₁ e₁ := by
  by_cases hflag : b.manualDisconnect = false ∧ b.autoReconnect = true
  · have hres : handleSessionEnd s r₁ e₁ =
        { s with
          bot := some { b with
            disconnectHandled := true,
            status := if e₁ then .error else .offline,
            client := none,
            logs := addLogList (addLogList b.logs (.sessionEnd e₁ r₁))
                      (.backoff (reconnectDelayMs b.reconnectAttempts) (b.reconnectAttempts + 1)),
            reconnectTimer := some s.next },
          armed := s.next :: clearTimer s.armed b.reconnectTimer,
          next := s.next + 1 } := by
      simp only [handleSessionEnd, hb, hg, Bool.false_eq_true, if_false, scheduleReconnect,
        hflag.1, hflag.2, not_false_iff, and_self, if_true, Bool.not_true, or_self]
      simp [hflag.1, hflag.2]
    rw [if_pos hflag]
    refine ⟨hres, ?_⟩
    rw [hres]
    rfl
  · have hcond : ¬(¬b.manualDisconnect = true ∧ b.autoReconnect = true) := by
      intro hc
      exact hflag ⟨by simpa using hc.1, hc.2⟩
    have hres : handleSessionEnd s r₁ e₁ =
        { s with
          bot := some { b with
            disconnectHandled := true,
            status := if e₁ then .error else .offline,
            client := none,
            logs := addLogList b.logs (.sessionEnd e₁ r₁) } } := by
      simp only [handleSessionEnd, hb, hg, Bool.false_eq_true, if_false]
      rw [if_neg hcond]
    rw [if_neg hflag]
    refine ⟨hres, ?_⟩
    rw [hres]
    rfl

/-- Witness for C2: the amended theorem applied at `onlineSys` with two
signals `ended(error=false)` then `ended(error=true)`. -/
theorem session_end_exactly_once_witness :
    onlineSys.bot = some onlineBot ∧ onlineBot.disconnectHandled = false ∧
    ((if onlineBot.manualDisconnect = false ∧ onlineBot.autoReconnect = true then
      handleSessionEnd onlineSys "Connection closed" false =
        { onlineSys with
          bot := some { onlineBot with
            disconnectHandled := true,
            status := if false then .error else .offline,
            client := none,
            logs := addLogList (addLogList onlineBot.logs (.sessionEnd false "Connection closed"))
                      (.backoff (reconnectDelayMs onlineBot.reconnectAttempts)
                        (onlineBot.reconnectAttempts + 1)),
            reconnectTimer := some onlineSys.next },
          armed := onlineSys.next :: clearTimer onlineSys.armed onlineBot.reconnectTimer,
          next := onlineSys.next + 1 }
    else
      handleSessionEnd onlineSys "Connection closed" false =
        { onlineSys with
          bot := some { onlineBot with
            disconnectHandled := true,
            status := if false then .error else .offline,
            client := none,
            logs := addLogList onlineBot.logs (.sessionEnd false "Connection closed") } }) ∧
    handleSessionEnd (handleSessionEnd onlineSys "Connection closed" false) "Error — write EPIPE" true
      = handleSessionEnd onlineSys "Connection closed" false) :=
  ⟨rfl, rfl,
   session_end_exactly_once onlineSys onlineBot "Connection closed" "Error — write EPIPE"
     false true rfl rfl⟩

/-- The auth challenge delivered in the C8 end-to-end scenario. -/
def authDemo : DeviceCode :=
  { userCode := "123-456", verificationUri := "https://www.microsoft.com/link", expiresIn := 900 }

/-- **C8.** The spawn handler always moves the record to `Online`,
resets `reconnectAttempts` to 0 and clears `deviceCode`; end-to-end,
after `start`, an auth challenge carrying code `123-456` (state
`AuthRequired`, `deviceCode.userCode = "123-456"`), and a `spawn`, the
record shows `Online`, attempt count 0 and no auth challenge. -/
theorem spawn_online_resets :
    (∀ (s : Sys) (b : Bot) (c : Nat) (sendOk : Bool) (errMsg : String), s.bot = some b →
      ∃ b', (onSpawn s c sendOk errMsg).bot = some b' ∧
        b'.status = .online ∧ b'.reconnectAttempts = 0 ∧ b'.deviceCode = none) ∧
    ((∃ b2, (onMsaCode (startBot Sys.init false true "") authDemo).bot = some b2 ∧
        b2.status = .authRequired ∧
        b2.deviceCode.map (fun d => d.userCode) = some "123-456") ∧
     (∃ b3, (onSpawn (onMsaCode (startBot Sys.init false true "") authDemo) 0 true "").bot
          = some b3 ∧
        b3.status = .online ∧ b3.reconnectAttempts = 0 ∧ b3.deviceCode = none)) := by
  constructor
  · intro s b c sendOk errMsg hb
    unfold onSpawn
    rw [hb]
    by_cases hs : sendOk = true
    · subst hs
      exact ⟨_, rfl, rfl, rfl, rfl⟩
    · simp only [Bool.not_eq_true] at hs
      subst hs
      exact ⟨_, rfl, rfl, rfl, rfl⟩
  · exact ⟨⟨_, rfl, rfl, rfl⟩, ⟨_, rfl, rfl, rfl, rfl⟩⟩

/-- Witness for C8: the universal part applied at `wSys0`. -/
theorem spawn_online_resets_witness :
    wSys0.bot = some Bot.init ∧
    (∃ b', (onSpawn wSys0 0 true "").bot = some b' ∧
      b'.status = .online ∧ b'.reconnectAttempts = 0 ∧ b'.deviceCode = none) :=
  ⟨rfl, spawn_online_resets.1 wSys0 Bot.init 0 true "" rfl⟩

/-- Witness for C10: the theorem applied at `wSys0` with client 0. -/
theorem spawn_extra_effects_witness :
    wSys0.bot = some Bot.init ∧
    (onSpawn wSys0 0 true "e" =
      { wSys0 with
        bot := some { Bot.init with
          status := .online, reconnectAttempts := 0,
          deviceCode := none, disconnectHandled := false,
          logs := addLogList (addLogList Bot.init.logs .spawned) .sentHome },
        sent := wSys0.sent ++ [(0, "/home 1")] } ∧
    onSpawn wSys0 0 false "e" =
      { wSys0 with
        bot := some { Bot.init with
          status := .online, reconnectAttempts := 0,
          deviceCode := none, disconnectHandled := false,
          logs := addLogList (addLogList Bot.init.logs .spawned) (.sendHomeFailed "e") } }) :=
  ⟨rfl, spawn_extra_effects wSys0 Bot.init 0 "e" rfl⟩

/-! ### A reachable interleaving with two live clients

`POST /connect`; the connection drops (a reconnect is scheduled);
`POST /connect` again while the timer is pending (allowed — the state is
`Offline` — and `startBot` resets `manualDisconnect` without cancelling
the timer); the stale timer fires, its re-check
`!manualDisconnect && autoReconnect` passes, and `startBot(email, true)`
creates a second client while the manually started one is still live. -/

/-- After the first `POST /connect`: client 0 connecting. -/
def trace1 : Sys := startBot Sys.init false true ""

/-- The server closes client 0's connection: `Offline`, reconnect timer
1 armed with a 5 s delay. -/
def trace2 : Sys := onClientEnd trace1 0 "Connection ended (socket closed by server)" false

/-- A second `POST /connect` while timer 1 is still armed: client 2
connecting, `manualDisconnect` and `disconnectHandled` reset. -/
def trace3 : Sys := startBot trace2 false true ""

/-- Timer 1 fires: the re-check passes, `startBot(email, true)` creates
client 3 while client 2 is still live. -/
def trace4 : Sys := timerFire trace3 1 true ""

lemma step_init_trace1 : Step Sys.init trace1 :=
  Step.connect Sys.init trace1 true "" rfl

lemma step_trace1_trace2 : Step trace1 trace2 :=
  Step.clientEnd trace1 0 "Connection ended (socket closed by server)" false (by decide)

lemma step_trace2_trace3 : Step trace2 trace3 :=
  Step.connect trace2 trace3 true "" rfl

lemma step_trace3_trace4 : Step trace3 trace4 :=
  Step.timer trace3 1 true "" (by decide)

/-- **C1 fails on the code.** The four-step interleaving above is
reachable, and it ends with two clients (ids 2 and 3) created and never
closed nor ended — two live connection handles for one account — while
`bot.client` references only the newer one (client 2 is leaked, its
handlers still attached). -/
theorem two_live_clients_bug :
    Reachable trace4 ∧
    trace4.conns = [{ id := 2, isOpen := true }, { id := 3, isOpen := true }] ∧
    (trace4.conns.filter (fun co => co.isOpen)).length = 2 ∧
    trace4.bot.map (fun b => b.client) = some (some 3) :=
  ⟨(((Relation.ReflTransGen.refl.tail step_init_trace1).tail step_trace1_trace2).tail
      step_trace2_trace3).tail step_trace3_trace4,
   by decide, by decide, by decide⟩

/-- `POST /set-reconnect {enabled: false}` on `trace2` (pending timer 1). -/
def trace2a : Sys := (setReconnectCmd trace2 false).toOption.getD Sys.init

lemma step_trace2_trace2a : Step trace2 trace2a :=
  Step.setReconnect trace2 trace2a false rfl

/-- **C3 fails on the code.** A reachable state in which the reconnect
timer 1 is still armed (and `bot.reconnectTimer` still non-null) while
`autoReconnectEnabled` is false: `setAutoReconnect(accountId, false)`
deliberately does not cancel a pending timer, so the claimed invariant
is not preserved by that operation. -/
theorem pending_timer_flag_cex :
    Reachable trace2a ∧
    trace2a.armed = [1] ∧
    trace2a.bot.map (fun b =>
      (b.reconnectTimer, b.autoReconnect, b.status, b.manualDisconnect)) =
      some (some 1, false, .offline, false) :=
  ⟨((Relation.ReflTransGen.refl.tail step_init_trace1).tail step_trace1_trace2).tail
      step_trace2_trace2a,
   by decide, by decide⟩

/-- **C3 (amended).** A reconnect timer is *armed* only at an instant at
which the session state is Offline or Error, `autoReconnectEnabled` is
true and `manualStopRequested` is false, with `pendingReconnectTimer`
pointing at the new timer: any step of any operation that adds a timer
to the armed set leaves the record in that shape.  (Once armed, the
timer and the field may outlive those conditions — e.g. after
`setAutoReconnect(false)`, which deliberately does not cancel it.) -/
theorem timer_armed_only_when_eligible (s s' : Sys) (hstep : Step s s') (t : Nat)
    (ht' : t ∈ s'.armed) (ht : t ∉ s.armed) :
    ∃ b, s'.bot = some b ∧ (b.status = .offline ∨ b.status = .error) ∧
      b.autoReconnect = true ∧ b.manualDisconnect = false ∧
      b.reconnectTimer = some t := by
  cases hstep with
  | connect s0 ok err h =>
    rw [connect_ok_eq h] at ht' ⊢
    obtain ⟨b2, hbot, hst, ha, hm, htm⟩ := start_arm ht' ht
    exact ⟨b2, hbot, Or.inr hst, ha, hm, htm⟩
  | disconnectH s0 h => exact absurd (disconnectHttp_armed h ht') ht
  | disconnectD s0 h => exact absurd (disconnectDiscord_armed h ht') ht
  | setReconnect s0 en h => rw [setReconnect_armed h] at ht'; exact absurd ht' ht
  | toggleReconnect s0 h => rw [toggleReconnect_armed h] at ht'; exact absurd ht' ht
  | chat s0 m h => rw [chatCmd_armed h] at ht'; exact absurd ht' ht
  | testReconnect s0 h => rw [testReconnect_armed h] at ht'; exact absurd ht' ht
  | timer t0 ok err hmem =>
    obtain ⟨b2, hbot, hst, ha, hm, htm⟩ := timerFire_arm ht' ht
    exact ⟨b2, hbot, Or.inr hst, ha, hm, htm⟩
  | clientEnd c r e hc =>
    exact hse_arm ht' ht
  | msaCode c d hc => rw [onMsaCode_armed] at ht'; exact absurd ht' ht
  | spawn c ok err hc => rw [onSpawn_armed] at ht'; exact absurd ht' ht
  | join c hc => rw [onJoin_armed] at ht'; exact absurd ht' ht
  | text c m hc => rw [onText_armed] at ht'; exact absurd ht' ht

/-- Witness for C3's amended theorem: the arming step `trace1 → trace2`
(session end scheduling the reconnect) with the fresh timer 1. -/
theorem timer_armed_only_when_eligible_witness :
    Step trace1 trace2 ∧ 1 ∈ trace2.armed ∧ 1 ∉ trace1.armed ∧
    (∃ b, trace2.bot = some b ∧ (b.status = .offline ∨ b.status = .error) ∧
      b.autoReconnect = true ∧ b.manualDisconnect = false ∧
      b.reconnectTimer = some 1) :=
  ⟨step_trace1_trace2, by decide, by decide,
   timer_armed_only_when_eligible trace1 trace2 step_trace1_trace2 1 (by decide) (by decide)⟩

end DonutBot

